import Mathlib

/-!
Shallow embedding of the session-lifecycle and decode-pipeline state machine
of `src/hang-source.cpp` (the `hang_source` OBS plugin source).

Modelling conventions:
* `struct hang_source` becomes the record `HangState`.  `char *` fields that
  may be NULL become `Option String`; `int32_t` handles stay `Int`
  (negative = invalid, as in the source); `uint32_t` counters become `Nat`
  with arithmetic taken modulo `2^32` where the source increments them;
  `uint64_t` timestamps become `Nat` with subtraction modulo `2^64`.
* Pointer-valued decoder state is modelled by presence information only:
  `codec_ctx : Bool` (non-NULL?), `sws_ctx : Option (Nat × Nat)` (the
  geometry the scaling context was built for), `frame_buffer : Option Nat`
  (the allocated size in bytes).
* Every externally visible effect (closing a MoQ handle, blanking the video,
  outputting a frame, flushing the decoder, requesting a reconnect or a
  consume) is recorded in an `Event` list returned next to the new state.
* Results of external calls (MoQ library calls, libav allocation and
  decode results) are oracle parameters of the transition functions.
* Each entry point is modelled as an atomic transition on the state; the
  generation value observed when a lock is re-acquired after a blocking
  call is an explicit oracle parameter where a claim depends on it
  (`hang_source_reconnect`), and is the state's own generation elsewhere
  (no-interference executions).
-/

namespace ObsMoq

/-- Modulus of `uint32_t` arithmetic. -/
def U32 : Nat := 4294967296

/-- Modulus of `uint64_t` arithmetic. -/
def U64 : Nat := 18446744073709551616

/-- C `uint64_t` subtraction `a - b` (wrap-around modulo `2^64`). -/
def u64sub (a b : Nat) : Nat := (a + (U64 - b % U64)) % U64

/-- C cast `(int)` of a `uint32_t` value (two's complement reinterpretation). -/
def i32ofU32 (n : Nat) : Int :=
  if n % U32 < 2147483648 then (n % U32 : Int) else (n % U32 : Int) - (U32 : Int)

/-- Debounce delay in milliseconds (`DEBOUNCE_DELAY_MS` in the source). -/
def DEBOUNCE_DELAY_MS : Nat := 500

/-- Default frame width (`FRAME_WIDTH`). -/
def FRAME_WIDTH : Nat := 1920

/-- Default frame height (`FRAME_HEIGHT`). -/
def FRAME_HEIGHT : Nat := 1080

/-- Externally visible effects of a transition, in program order. -/
inductive Event where
  | blankVideo : Event
  | outputVideo (width height timestamp : Nat) : Event
  | reconnectReq (url broadcast : Option String) : Event
  | startConsumeReq (gen : Nat) : Event
  | closeOrigin (h : Int) : Event
  | closeSession (h : Int) : Event
  | closeConsume (h : Int) : Event
  | closeCatalog (h : Int) : Event
  | closeTrack (h : Int) : Event
  | closeFrame (h : Int) : Event
  | flushDecoder : Event
deriving Repr, DecidableEq

/-- The `struct hang_source` state block (mutex-protected fields). -/
structure HangState where
  url : Option String
  broadcast : Option String
  pending_url : Option String
  pending_broadcast : Option String
  settings_changed_time : Nat
  reconnect_pending : Bool
  shutting_down : Bool
  generation : Nat
  reconnect_in_progress : Bool
  origin : Int
  session : Int
  consume : Int
  catalog_handle : Int
  video_track : Int
  codec_ctx : Bool
  sws_ctx : Option (Nat × Nat)
  got_keyframe : Bool
  frames_waiting_for_keyframe : Nat
  consecutive_decode_errors : Nat
  frame_width : Nat
  frame_height : Nat
  frame_linesize0 : Nat
  frame_timestamp : Nat
  frame_buffer : Option Nat
deriving Repr, DecidableEq

/-- Initial state produced by `hang_source_create` (before the embedded
`hang_source_update` call). -/
def initialState : HangState :=
  { url := none, broadcast := none
    pending_url := none, pending_broadcast := none
    settings_changed_time := 0, reconnect_pending := false
    shutting_down := false
    generation := 0, reconnect_in_progress := false
    origin := -1, session := -1, consume := -1
    catalog_handle := -1, video_track := -1
    codec_ctx := false, sws_ctx := none
    got_keyframe := false, frames_waiting_for_keyframe := 0
    consecutive_decode_errors := 0
    frame_width := FRAME_WIDTH, frame_height := FRAME_HEIGHT
    frame_linesize0 := FRAME_WIDTH * 4, frame_timestamp := 0
    frame_buffer := none }

/-- `hang_source_update`: stage the new settings; when either differs from
the currently pending value, record the change time and mark a reconnect
as pending.  (`obs_data_get_string` never returns NULL, so the incoming
strings are plain `String`s.)  The function performs no external calls. -/
def hang_source_update (s : HangState) (url broadcast : String) (now : Nat) :
    HangState :=
  let c1 : Bool := s.pending_url ≠ some url
  let s1 := if c1 then { s with pending_url := some url } else s
  let c2 : Bool := s1.pending_broadcast ≠ some broadcast
  let s2 := if c2 then { s1 with pending_broadcast := some broadcast } else s1
  if c1 ∨ c2 then
    { s2 with settings_changed_time := now, reconnect_pending := true }
  else s2

/-- `hang_source_disconnect_locked`: close every open handle in the fixed
order track → catalog → consume → session → origin, then destroy the
decoder state and reset the keyframe bookkeeping. -/
def hang_source_disconnect_locked (s : HangState) : HangState × List Event :=
  let ev :=
    (if s.video_track ≥ 0 then [Event.closeTrack s.video_track] else []) ++
    (if s.catalog_handle ≥ 0 then [Event.closeCatalog s.catalog_handle] else []) ++
    (if s.consume ≥ 0 then [Event.closeConsume s.consume] else []) ++
    (if s.session ≥ 0 then [Event.closeSession s.session] else []) ++
    (if s.origin ≥ 0 then [Event.closeOrigin s.origin] else [])
  ({ s with video_track := -1, catalog_handle := -1, consume := -1
            session := -1, origin := -1
            codec_ctx := false, sws_ctx := none, frame_buffer := none
            got_keyframe := false, frames_waiting_for_keyframe := 0
            consecutive_decode_errors := 0 }, ev)

/-- String validity test used by the tick: both strings present and
non-empty (`strlen(...) > 0`). -/
def validConfig (url broadcast : Option String) : Bool :=
  match url, broadcast with
  | some u, some b => u.length > 0 ∧ b.length > 0
  | _, _ => false

/-- `hang_source_video_tick`: debounced application of pending settings.
`now` is the `os_gettime_ns()` reading.  A reconnect is represented by the
event `Event.reconnectReq` carrying the active url/broadcast at the call. -/
def hang_source_video_tick (s : HangState) (now : Nat) :
    HangState × List Event :=
  if s.shutting_down then (s, [])
  else if ¬ s.reconnect_pending then (s, [])
  else if u64sub now s.settings_changed_time / 1000000 < DEBOUNCE_DELAY_MS then
    (s, [])
  else
    let s1 := { s with reconnect_pending := false }
    let url_changed : Bool := s1.url ≠ s1.pending_url
    let broadcast_changed : Bool := s1.broadcast ≠ s1.pending_broadcast
    if ¬ url_changed ∧ ¬ broadcast_changed then (s1, [])
    else
      let s2 := { s1 with url := s1.pending_url, broadcast := s1.pending_broadcast }
      if ¬ validConfig s2.url s2.broadcast then
        let d := hang_source_disconnect_locked s2
        (d.1, d.2 ++ [Event.blankVideo])
      else
        (s2, [Event.reconnectReq s2.url s2.broadcast])

/-- Close the session and origin handles (each only when open), as done on
the connection-failure paths. -/
def closeSessionOrigin (s : HangState) : HangState × List Event :=
  let ev :=
    (if s.session ≥ 0 then [Event.closeSession s.session] else []) ++
    (if s.origin ≥ 0 then [Event.closeOrigin s.origin] else [])
  ({ s with session := if s.session ≥ 0 then -1 else s.session
            origin := if s.origin ≥ 0 then -1 else s.origin }, ev)

/-- Close the consume, session and origin handles (each only when open), as
done on the catalog-subscription-failure path. -/
def closeConsumeSessionOrigin (s : HangState) : HangState × List Event :=
  let ev :=
    (if s.consume ≥ 0 then [Event.closeConsume s.consume] else []) ++
    (if s.session ≥ 0 then [Event.closeSession s.session] else []) ++
    (if s.origin ≥ 0 then [Event.closeOrigin s.origin] else [])
  ({ s with consume := if s.consume ≥ 0 then -1 else s.consume
            session := if s.session ≥ 0 then -1 else s.session
            origin := if s.origin ≥ 0 then -1 else s.origin }, ev)

/-- `hang_source_reconnect`: the oracle `originResult` is the
`moq_origin_create` result, `sessionResult` the `moq_session_connect`
result, and `genAtCommit` the generation value observed when the lock is
re-acquired to install the new handles (modelling a concurrent reconnect
that may have superseded this one while the blocking calls ran). -/
def hang_source_reconnect (s : HangState)
    (originResult sessionResult : Int) (genAtCommit : Nat) :
    HangState × List Event :=
  if s.reconnect_in_progress then (s, [])
  else
    let newGen := (s.generation + 1) % U32
    let d := hang_source_disconnect_locked
      { s with reconnect_in_progress := true, generation := newGen }
    let s1 := d.1
    let ev := d.2 ++ [Event.blankVideo]
    if originResult < 0 then
      ({ s1 with reconnect_in_progress := false }, ev)
    else if sessionResult < 0 then
      ({ s1 with reconnect_in_progress := false },
        ev ++ [Event.closeOrigin originResult])
    else if genAtCommit ≠ newGen then
      ({ s1 with reconnect_in_progress := false },
        ev ++ [Event.closeSession sessionResult, Event.closeOrigin originResult])
    else
      ({ s1 with origin := originResult, session := sessionResult
                 reconnect_in_progress := false }, ev)

/-- `on_session_status`: a successful status code (0) hands off to
`hang_source_start_consume` (recorded as `Event.startConsumeReq`); any
other code closes session and origin and blanks the video. -/
def on_session_status (s : HangState) (code : Int) : HangState × List Event :=
  if s.shutting_down then (s, [])
  else if s.session < 0 then (s, [])
  else if code = 0 then (s, [Event.startConsumeReq s.generation])
  else
    let d := closeSessionOrigin s
    (d.1, d.2 ++ [Event.blankVideo])

/-- `hang_source_start_consume`: the oracles `consumeResult` and
`catalogSubResult` are the results of `moq_origin_consume` and
`moq_consume_catalog`.  The generation re-checks after the blocking calls
compare against the state's own generation (atomic, no-interference
execution).  The catalog-subscription handle is not stored on success,
exactly as in the source. -/
def hang_source_start_consume (s : HangState) (expected_gen : Nat)
    (consumeResult catalogSubResult : Int) : HangState × List Event :=
  if s.origin < 0 ∨ s.generation ≠ expected_gen then (s, [])
  else if consumeResult < 0 then
    let d := if s.generation = expected_gen then closeSessionOrigin s else (s, [])
    (d.1, d.2 ++ [Event.blankVideo])
  else if s.generation ≠ expected_gen then
    (s, [Event.closeConsume consumeResult])
  else
    let s1 := { s with consume := consumeResult }
    if catalogSubResult < 0 then
      let d := if s1.generation = expected_gen then closeConsumeSessionOrigin s1
        else (s1, [])
      (d.1, d.2 ++ [Event.blankVideo])
    else (s1, [])

/-- The video configuration extracted from a catalog
(`struct moq_video_config`): nullable coded width/height pointers become
`Option Nat` (the pointees are `uint32_t`). -/
structure MoqVideoConfig where
  coded_width : Option Nat
  coded_height : Option Nat
deriving Repr, DecidableEq

/-- Geometry selected by `hang_source_init_decoder` from the config:
each axis comes from the config when present and positive, else the
default `FRAME_WIDTH × FRAME_HEIGHT`. -/
def initGeometry (cfg : MoqVideoConfig) : Nat × Nat :=
  let w := match cfg.coded_width with
    | some v => if v > 0 then v else FRAME_WIDTH
    | none => FRAME_WIDTH
  let h := match cfg.coded_height with
    | some v => if v > 0 then v else FRAME_HEIGHT
    | none => FRAME_HEIGHT
  (w, h)

/-- `hang_source_init_decoder`: builds a new decoder, frame buffer and
scaler outside the lock (`allocOk` collapses the codec-find, context-alloc,
codec-open, `bmalloc` and `sws_getContext` failure points into one oracle),
then swaps the new state in under the lock.  Returns `none` exactly when
the source returns `false`; the previous state is then untouched.  The
buffer size `width * height * 4` is computed in 32-bit unsigned
arithmetic in the source, hence the `% U32`. -/
def hang_source_init_decoder (s : HangState) (cfg : MoqVideoConfig)
    (allocOk : Bool) : Option HangState :=
  if ¬ allocOk then none
  else
    let (w, h) := initGeometry cfg
    some { s with codec_ctx := true
                  sws_ctx := some (w, h)
                  frame_buffer := some (w * h * 4 % U32)
                  frame_width := w, frame_height := h
                  frame_linesize0 := w * 4
                  frame_timestamp := 0
                  got_keyframe := false
                  frames_waiting_for_keyframe := 0
                  consecutive_decode_errors := 0 }

/-- `on_catalog`: the oracles are the `moq_consume_video_config` result,
the decoder-construction success flag, and the `moq_consume_video_ordered`
result. -/
def on_catalog (s : HangState) (catalog : Int)
    (cfgResult : Option MoqVideoConfig) (initAllocOk : Bool)
    (trackResult : Int) : HangState × List Event :=
  if s.shutting_down then
    (s, if catalog ≥ 0 then [Event.closeCatalog catalog] else [])
  else if s.consume < 0 then
    (s, if catalog ≥ 0 then [Event.closeCatalog catalog] else [])
  else if catalog < 0 then (s, [Event.blankVideo])
  else
    let current_gen := s.generation
    match cfgResult with
    | none => (s, [Event.closeCatalog catalog])
    | some cfg =>
      match hang_source_init_decoder s cfg initAllocOk with
      | none => (s, [Event.closeCatalog catalog])
      | some s1 =>
        if trackResult < 0 then (s1, [Event.closeCatalog catalog])
        else if s1.generation = current_gen then
          ({ s1 with video_track := trackResult, catalog_handle := catalog }, [])
        else
          (s1, [Event.closeTrack trackResult, Event.closeCatalog catalog])

/-- Payload metadata fetched from a frame handle
(`struct moq_frame`, via `moq_consume_frame_chunk`). -/
structure MoqFrame where
  keyframe : Bool
  payload_size : Nat
  timestamp_us : Nat
deriving Repr, DecidableEq

/-- Control-flow-relevant result of `avcodec_send_packet` /
`avcodec_receive_frame`: success, `AVERROR(EAGAIN)` (needs more input,
transient), or a genuine error. -/
inductive AVResult where
  | ok : AVResult
  | again : AVResult
  | err : AVResult
deriving Repr, DecidableEq

/-- Decoded-frame geometry delivered by `avcodec_receive_frame` on success
(`AVFrame.width/height` are C `int`s). -/
structure AVFrameGeom where
  width : Int
  height : Int
deriving Repr, DecidableEq

/-- `hang_source_decode_frame`: the full decode pipeline for one frame
handle.  Oracles: `chunk` is the `moq_consume_frame_chunk` result,
`packetOk` the `av_packet_alloc` success, `send` the `avcodec_send_packet`
outcome, `frameAllocOk` the `av_frame_alloc` success, `recv` the
`avcodec_receive_frame` outcome with `geom` its delivered geometry, and
`swsOk` / `bufOk` the `sws_getContext` / `bmalloc` successes on the
geometry-change path. -/
def hang_source_decode_frame (s : HangState) (frame_id : Int)
    (chunk : Option MoqFrame) (packetOk : Bool)
    (send : AVResult) (frameAllocOk : Bool)
    (recv : AVResult) (geom : AVFrameGeom)
    (swsOk bufOk : Bool) : HangState × List Event :=
  if s.shutting_down then (s, [Event.closeFrame frame_id])
  else if ¬ s.codec_ctx ∨ s.sws_ctx = none ∨ s.frame_buffer = none then
    (s, [Event.closeFrame frame_id])
  else match chunk with
  | none => (s, [Event.closeFrame frame_id])
  | some fd =>
    if ¬ s.got_keyframe ∧ ¬ fd.keyframe then
      ({ s with frames_waiting_for_keyframe :=
          (s.frames_waiting_for_keyframe + 1) % U32 },
        [Event.closeFrame frame_id])
    else
      let flushEv : List Event :=
        if fd.keyframe ∧ ¬ s.got_keyframe then [Event.flushDecoder] else []
      let s1 := if fd.keyframe then
          { s with got_keyframe := true, frames_waiting_for_keyframe := 0
                   consecutive_decode_errors := 0 }
        else s
      if ¬ packetOk then (s1, flushEv ++ [Event.closeFrame frame_id])
      else
        match send with
        | AVResult.again => (s1, flushEv ++ [Event.closeFrame frame_id])
        | AVResult.err =>
          let c := (s1.consecutive_decode_errors + 1) % U32
          if c ≥ 5 then
            ({ s1 with consecutive_decode_errors := 0, got_keyframe := false },
              flushEv ++ [Event.flushDecoder, Event.closeFrame frame_id])
          else
            ({ s1 with consecutive_decode_errors := c },
              flushEv ++ [Event.closeFrame frame_id])
        | AVResult.ok =>
          if ¬ frameAllocOk then (s1, flushEv ++ [Event.closeFrame frame_id])
          else
            match recv with
            | AVResult.again => (s1, flushEv ++ [Event.closeFrame frame_id])
            | AVResult.err =>
              let c := (s1.consecutive_decode_errors + 1) % U32
              if c ≥ 5 then
                ({ s1 with consecutive_decode_errors := 0
                           got_keyframe := false },
                  flushEv ++ [Event.flushDecoder, Event.closeFrame frame_id])
              else
                ({ s1 with consecutive_decode_errors := c },
                  flushEv ++ [Event.closeFrame frame_id])
            | AVResult.ok =>
              let s2 := { s1 with consecutive_decode_errors := 0 }
              if geom.width ≠ i32ofU32 s2.frame_width ∨
                 geom.height ≠ i32ofU32 s2.frame_height then
                if geom.width ≤ 0 ∨ geom.height ≤ 0 ∨
                   geom.width > 16384 ∨ geom.height > 16384 then
                  (s2, flushEv ++ [Event.closeFrame frame_id])
                else
                  let s3 := { s2 with sws_ctx := none }
                  if ¬ swsOk then
                    (s3, flushEv ++ [Event.closeFrame frame_id])
                  else if ¬ bufOk then
                    (s3, flushEv ++ [Event.closeFrame frame_id])
                  else
                    let w := geom.width.toNat
                    let h := geom.height.toNat
                    let s4 := { s3 with sws_ctx := some (w, h)
                                        frame_buffer := some (w * h * 4)
                                        frame_width := w, frame_height := h
                                        frame_linesize0 := w * 4 }
                    ({ s4 with frame_timestamp := fd.timestamp_us },
                      flushEv ++ [Event.outputVideo w h fd.timestamp_us,
                                  Event.closeFrame frame_id])
              else
                ({ s2 with frame_timestamp := fd.timestamp_us },
                  flushEv ++ [Event.outputVideo s2.frame_width s2.frame_height
                                fd.timestamp_us,
                              Event.closeFrame frame_id])

/-- `on_video_frame`: an error result (negative id) is dropped without a
close; on shutdown or consume-handle absence the inbound frame handle is
closed; otherwise the frame is delegated to the decode pipeline. -/
def on_video_frame (s : HangState) (frame_id : Int)
    (chunk : Option MoqFrame) (packetOk : Bool) (send : AVResult)
    (frameAllocOk : Bool) (recv : AVResult) (geom : AVFrameGeom)
    (swsOk bufOk : Bool) : HangState × List Event :=
  if frame_id < 0 then (s, [])
  else if s.shutting_down then (s, [Event.closeFrame frame_id])
  else if s.consume < 0 then (s, [Event.closeFrame frame_id])
  else hang_source_decode_frame s frame_id chunk packetOk send frameAllocOk
         recv geom swsOk bufOk

/-- Test for a reconnect-request event. -/
def isReconnectReq : Event → Bool
  | Event.reconnectReq _ _ => true
  | _ => false

/-- Test for an output-frame event. -/
def isOutputVideo : Event → Bool
  | Event.outputVideo _ _ _ => true
  | _ => false

/-- The teardown helper emits only close events, so it never emits a
reconnect request. -/
theorem disconnect_events_no_reconnect (s : HangState) :
    (hang_source_disconnect_locked s).2.countP isReconnectReq = 0 := by
  simp only [hang_source_disconnect_locked]
  split_ifs <;> rfl

/-! ## Claim theorems -/

/-- C9 (amended): `hang_source_update` stores the incoming url and broadcast
into the pending configuration and, whenever either differs from the
currently pending value, records the current time and sets
`reconnect_pending`; when both already equal the pending configuration the
call leaves the state unchanged; it never touches the connection handles. -/
theorem update_stages_pending (s : HangState) (url broadcast : String)
    (now : Nat) :
    (¬ (s.pending_url = some url ∧ s.pending_broadcast = some broadcast) →
      hang_source_update s url broadcast now =
        { s with pending_url := some url, pending_broadcast := some broadcast
                 settings_changed_time := now, reconnect_pending := true }) ∧
    (s.pending_url = some url → s.pending_broadcast = some broadcast →
      hang_source_update s url broadcast now = s) ∧
    (hang_source_update s url broadcast now).origin = s.origin ∧
    (hang_source_update s url broadcast now).session = s.session ∧
    (hang_source_update s url broadcast now).consume = s.consume ∧
    (hang_source_update s url broadcast now).catalog_handle = s.catalog_handle ∧
    (hang_source_update s url broadcast now).video_track = s.video_track := by
  cases s
  constructor
  · intro h
    simp only [hang_source_update]
    split_ifs <;> simp_all
  constructor
  · intro h1 h2
    simp only [hang_source_update]
    split_ifs <;> simp_all
  refine ⟨?_, ?_, ?_, ?_, ?_⟩ <;>
    · simp only [hang_source_update]
      split_ifs <;> simp_all

/-- C9 counterexample state: the pending configuration already equals the
incoming values and `reconnect_pending` is clear. -/
def c9State : HangState :=
  { initialState with pending_url := some "a", pending_broadcast := some "b"
                      settings_changed_time := 7 }

/-- C9 counterexample: calling the settings-update entry point with values
equal to the current pending configuration neither records the time nor
sets `reconnect_pending`, contradicting the claim's unconditional
"records the current time as pendingSince, and sets reconnectPending to
true". -/
theorem update_noop_when_unchanged :
    (hang_source_update c9State "a" "b" 100).reconnect_pending = false ∧
    (hang_source_update c9State "a" "b" 100).settings_changed_time = 7 := by
  decide

/-- C9 witness: the amended theorem applied at a concrete state where the
url changes. -/
theorem update_stages_pending_witness :
    hang_source_update c9State "c" "b" 100 =
      { c9State with pending_url := some "c", pending_broadcast := some "b"
                     settings_changed_time := 100, reconnect_pending := true } :=
  (update_stages_pending c9State "c" "b" 100).1 (by decide)

/-- C1 (amended): the tick issues no reconnect while shutting down, while
no reconnect is pending, or before the 500 ms debounce window has elapsed
(in each case the state is untouched); once the window has elapsed it
clears `reconnect_pending` and issues exactly one reconnect request using
only the last-written url and broadcast values, except that it issues none
when those values equal the currently active configuration, and none when
either adopted value is missing or empty. -/
theorem tick_debounce (s : HangState) (now : Nat) :
    (s.shutting_down = true → hang_source_video_tick s now = (s, [])) ∧
    (s.reconnect_pending = false → hang_source_video_tick s now = (s, [])) ∧
    (u64sub now s.settings_changed_time / 1000000 < DEBOUNCE_DELAY_MS →
      hang_source_video_tick s now = (s, [])) ∧
    (s.shutting_down = false → s.reconnect_pending = true →
      DEBOUNCE_DELAY_MS ≤ u64sub now s.settings_changed_time / 1000000 →
      (hang_source_video_tick s now).1.reconnect_pending = false ∧
      (s.url = s.pending_url → s.broadcast = s.pending_broadcast →
        hang_source_video_tick s now = ({ s with reconnect_pending := false }, [])) ∧
      ((s.url ≠ s.pending_url ∨ s.broadcast ≠ s.pending_broadcast) →
        (validConfig s.pending_url s.pending_broadcast = true →
          hang_source_video_tick s now =
            ({ s with reconnect_pending := false, url := s.pending_url
                      broadcast := s.pending_broadcast },
              [Event.reconnectReq s.pending_url s.pending_broadcast])) ∧
        (validConfig s.pending_url s.pending_broadcast = false →
          (hang_source_video_tick s now).2.countP isReconnectReq = 0))) := by
  refine ⟨?_, ?_, ?_, ?_⟩
  · intro h
    simp [hang_source_video_tick, h]
  · intro h
    simp [hang_source_video_tick, h]
  · intro h
    simp only [hang_source_video_tick]
    split_ifs <;> rfl
  · intro hsd hp he
    have hnl : ¬ u64sub now s.settings_changed_time / 1000000 < DEBOUNCE_DELAY_MS :=
      not_lt.mpr he
    refine ⟨?_, ?_, ?_⟩
    · by_cases h1 : s.url = s.pending_url
      · by_cases h2 : s.broadcast = s.pending_broadcast
        · simp [hang_source_video_tick, hsd, hp, hnl, h1, h2]
        · by_cases hv : validConfig s.pending_url s.pending_broadcast = true
          · simp [hang_source_video_tick, hsd, hp, hnl, h1, h2, hv]
          · simp [hang_source_video_tick, hsd, hp, hnl, h1, h2, hv,
              hang_source_disconnect_locked]
      · by_cases hv : validConfig s.pending_url s.pending_broadcast = true
        · simp [hang_source_video_tick, hsd, hp, hnl, h1, hv]
        · simp [hang_source_video_tick, hsd, hp, hnl, h1, hv,
            hang_source_disconnect_locked]
    · intro h1 h2
      simp [hang_source_video_tick, hsd, hp, hnl, h1, h2]
    · intro hch
      constructor
      · intro hv
        rcases hch with h | h <;>
          simp [hang_source_video_tick, hsd, hp, hnl, h, hv]
      · intro hv
        rcases hch with h | h <;>
          simp [hang_source_video_tick, hsd, hp, hnl, h, hv,
            List.countP_append, disconnect_events_no_reconnect, isReconnectReq]

/-- C1 counterexample state: active configuration `("a","b")`, pending
configuration `("","x")` staged at time 0. -/
def c1State : HangState :=
  { initialState with url := some "a", broadcast := some "b"
                      pending_url := some "", pending_broadcast := some "x"
                      reconnect_pending := true }

/-- C1 counterexample: one second after an update staged the values
`("", "x")` — which differ from the active configuration — the tick issues
zero reconnect requests, although the claim demands exactly one once the
debounce window has elapsed and the values differ from the active
configuration. -/
theorem tick_no_reconnect_on_empty :
    c1State.shutting_down = false ∧ c1State.reconnect_pending = true ∧
    DEBOUNCE_DELAY_MS ≤ u64sub 1000000000 c1State.settings_changed_time / 1000000 ∧
    (c1State.url ≠ c1State.pending_url ∨
      c1State.broadcast ≠ c1State.pending_broadcast) ∧
    (hang_source_video_tick c1State 1000000000).2.countP isReconnectReq = 0 := by
  decide

/-- C1 witness state: valid pending configuration `("u","v")`. -/
def c1Witness : HangState :=
  { initialState with pending_url := some "u", pending_broadcast := some "v"
                      reconnect_pending := true }

/-- C1 witness: the amended theorem at a concrete state, yielding exactly
one reconnect request with the last-written values. -/
theorem tick_debounce_witness :
    hang_source_video_tick c1Witness 1000000000 =
      ({ c1Witness with reconnect_pending := false, url := some "u"
                        broadcast := some "v" },
        [Event.reconnectReq (some "u") (some "v")]) :=
  ((((tick_debounce c1Witness 1000000000).2.2.2 (by decide) (by decide)
      (by decide)).2.2 (by decide)).1 (by decide))

/-- A concrete fully connected state used by witnesses and counterexamples:
active configuration `("a","b")`, full handle chain, initialized decoder. -/
def connState : HangState :=
  { initialState with
    url := some "a"
    broadcast := some "b"
    pending_url := some "a"
    pending_broadcast := some "b"
    origin := 3, session := 2, consume := 1, catalog_handle := 4, video_track := 5
    codec_ctx := true, sws_ctx := some (1920, 1080)
    frame_buffer := some (1920 * 1080 * 4) }

/-- C8: when the debounce window has elapsed and the newly adopted url or
broadcast is missing or empty, the tick tears the existing connection down
synchronously (every open handle is closed and all handle slots and
decoder state are cleared), emits a blank output, and issues no reconnect
request. -/
theorem tick_invalid_teardown (s : HangState) (now : Nat)
    (hsd : s.shutting_down = false) (hp : s.reconnect_pending = true)
    (he : DEBOUNCE_DELAY_MS ≤ u64sub now s.settings_changed_time / 1000000)
    (hch : s.url ≠ s.pending_url ∨ s.broadcast ≠ s.pending_broadcast)
    (hinv : validConfig s.pending_url s.pending_broadcast = false) :
    (hang_source_video_tick s now).1.origin = -1 ∧
    (hang_source_video_tick s now).1.session = -1 ∧
    (hang_source_video_tick s now).1.consume = -1 ∧
    (hang_source_video_tick s now).1.catalog_handle = -1 ∧
    (hang_source_video_tick s now).1.video_track = -1 ∧
    (hang_source_video_tick s now).1.codec_ctx = false ∧
    (hang_source_video_tick s now).1.sws_ctx = none ∧
    (hang_source_video_tick s now).1.frame_buffer = none ∧
    Event.blankVideo ∈ (hang_source_video_tick s now).2 ∧
    (s.video_track ≥ 0 →
      Event.closeTrack s.video_track ∈ (hang_source_video_tick s now).2) ∧
    (s.catalog_handle ≥ 0 →
      Event.closeCatalog s.catalog_handle ∈ (hang_source_video_tick s now).2) ∧
    (s.consume ≥ 0 →
      Event.closeConsume s.consume ∈ (hang_source_video_tick s now).2) ∧
    (s.session ≥ 0 →
      Event.closeSession s.session ∈ (hang_source_video_tick s now).2) ∧
    (s.origin ≥ 0 →
      Event.closeOrigin s.origin ∈ (hang_source_video_tick s now).2) ∧
    (hang_source_video_tick s now).2.countP isReconnectReq = 0 := by
  have hnl : ¬ u64sub now s.settings_changed_time / 1000000 < DEBOUNCE_DELAY_MS :=
    not_lt.mpr he
  have key : hang_source_video_tick s now =
      ((hang_source_disconnect_locked
          { s with reconnect_pending := false, url := s.pending_url
                   broadcast := s.pending_broadcast }).1,
        (hang_source_disconnect_locked
          { s with reconnect_pending := false, url := s.pending_url
                   broadcast := s.pending_broadcast }).2 ++ [Event.blankVideo]) := by
    rcases hch with h | h <;>
      simp [hang_source_video_tick, hsd, hp, hnl, h, hinv]
  rw [key]
  refine ⟨?_, ?_, ?_, ?_, ?_, ?_, ?_, ?_, ?_, ?_, ?_, ?_, ?_, ?_, ?_⟩
  · simp [hang_source_disconnect_locked]
  · simp [hang_source_disconnect_locked]
  · simp [hang_source_disconnect_locked]
  · simp [hang_source_disconnect_locked]
  · simp [hang_source_disconnect_locked]
  · simp [hang_source_disconnect_locked]
  · simp [hang_source_disconnect_locked]
  · simp [hang_source_disconnect_locked]
  · simp
  · intro hh
    simp only [hang_source_disconnect_locked]
    split_ifs <;> simp
  · intro hh
    simp only [hang_source_disconnect_locked]
    split_ifs <;> simp
  · intro hh
    simp only [hang_source_disconnect_locked]
    split_ifs <;> simp
  · intro hh
    simp only [hang_source_disconnect_locked]
    split_ifs <;> simp
  · intro hh
    simp only [hang_source_disconnect_locked]
    split_ifs <;> simp
  · simp [List.countP_append, disconnect_events_no_reconnect, isReconnectReq]

/-- C8 witness state: connected with pending configuration `("", "x")`. -/
def c8State : HangState :=
  { connState with pending_url := some "", pending_broadcast := some "x"
                   reconnect_pending := true }

/-- C8 witness: the theorem at a concrete connected state one second after
an empty url was staged. -/
theorem tick_invalid_teardown_witness :
    (hang_source_video_tick c8State 1000000000).1.origin = -1 ∧
    (hang_source_video_tick c8State 1000000000).1.session = -1 ∧
    (hang_source_video_tick c8State 1000000000).1.consume = -1 ∧
    (hang_source_video_tick c8State 1000000000).1.catalog_handle = -1 ∧
    (hang_source_video_tick c8State 1000000000).1.video_track = -1 ∧
    (hang_source_video_tick c8State 1000000000).1.codec_ctx = false ∧
    (hang_source_video_tick c8State 1000000000).1.sws_ctx = none ∧
    (hang_source_video_tick c8State 1000000000).1.frame_buffer = none ∧
    Event.blankVideo ∈ (hang_source_video_tick c8State 1000000000).2 ∧
    (c8State.video_track ≥ 0 →
      Event.closeTrack c8State.video_track ∈
        (hang_source_video_tick c8State 1000000000).2) ∧
    (c8State.catalog_handle ≥ 0 →
      Event.closeCatalog c8State.catalog_handle ∈
        (hang_source_video_tick c8State 1000000000).2) ∧
    (c8State.consume ≥ 0 →
      Event.closeConsume c8State.consume ∈
        (hang_source_video_tick c8State 1000000000).2) ∧
    (c8State.session ≥ 0 →
      Event.closeSession c8State.session ∈
        (hang_source_video_tick c8State 1000000000).2) ∧
    (c8State.origin ≥ 0 →
      Event.closeOrigin c8State.origin ∈
        (hang_source_video_tick c8State 1000000000).2) ∧
    (hang_source_video_tick c8State 1000000000).2.countP isReconnectReq = 0 :=
  tick_invalid_teardown c8State 1000000000 (by decide) (by decide) (by decide)
    (by decide) (by decide)

/-- State prepared at the start of a reconnect: `reconnect_in_progress`
set and the generation bumped (in `uint32_t` arithmetic). -/
def reconnectPrep (s : HangState) : HangState :=
  { s with reconnect_in_progress := true, generation := (s.generation + 1) % U32 }

/-- Each open handle's close event is among the teardown helper's events. -/
theorem disconnect_mem_closes (s : HangState) :
    (s.video_track ≥ 0 →
      Event.closeTrack s.video_track ∈ (hang_source_disconnect_locked s).2) ∧
    (s.catalog_handle ≥ 0 →
      Event.closeCatalog s.catalog_handle ∈ (hang_source_disconnect_locked s).2) ∧
    (s.consume ≥ 0 →
      Event.closeConsume s.consume ∈ (hang_source_disconnect_locked s).2) ∧
    (s.session ≥ 0 →
      Event.closeSession s.session ∈ (hang_source_disconnect_locked s).2) ∧
    (s.origin ≥ 0 →
      Event.closeOrigin s.origin ∈ (hang_source_disconnect_locked s).2) := by
  simp only [hang_source_disconnect_locked]
  refine ⟨?_, ?_, ?_, ?_, ?_⟩ <;> intro hh <;> split_ifs <;> simp_all

/-- Unfolding of `hang_source_reconnect` when no reconnect is in
progress. -/
theorem reconnect_run (s : HangState) (o se : Int) (g : Nat)
    (hrip : s.reconnect_in_progress = false) :
    hang_source_reconnect s o se g =
      (if o < 0 then
        ({ (hang_source_disconnect_locked (reconnectPrep s)).1 with
            reconnect_in_progress := false },
          (hang_source_disconnect_locked (reconnectPrep s)).2 ++ [Event.blankVideo])
       else if se < 0 then
        ({ (hang_source_disconnect_locked (reconnectPrep s)).1 with
            reconnect_in_progress := false },
          ((hang_source_disconnect_locked (reconnectPrep s)).2 ++ [Event.blankVideo]) ++
            [Event.closeOrigin o])
       else if g ≠ (s.generation + 1) % U32 then
        ({ (hang_source_disconnect_locked (reconnectPrep s)).1 with
            reconnect_in_progress := false },
          ((hang_source_disconnect_locked (reconnectPrep s)).2 ++ [Event.blankVideo]) ++
            [Event.closeSession se, Event.closeOrigin o])
       else
        ({ (hang_source_disconnect_locked (reconnectPrep s)).1 with
            origin := o, session := se, reconnect_in_progress := false },
          (hang_source_disconnect_locked (reconnectPrep s)).2 ++ [Event.blankVideo])) := by
  unfold hang_source_reconnect reconnectPrep
  rw [if_neg (show ¬ (s.reconnect_in_progress = true) by simp [hrip])]

/-- C6: `hang_source_reconnect` is a no-op when a reconnect is already in
progress; otherwise it increments the generation by exactly one (in
`uint32_t` arithmetic), tears down the existing chain, and installs the
freshly created origin and session only when the generation observed at
commit time still equals the new generation, closing both fresh handles
when a newer reconnect superseded it. -/
theorem reconnect_gen_protocol (s : HangState)
    (originResult sessionResult : Int) (genAtCommit : Nat) :
    (s.reconnect_in_progress = true →
      hang_source_reconnect s originResult sessionResult genAtCommit = (s, [])) ∧
    (s.reconnect_in_progress = false →
      (hang_source_reconnect s originResult sessionResult genAtCommit).1.generation =
        (s.generation + 1) % U32 ∧
      (hang_source_reconnect s originResult sessionResult genAtCommit).1.consume = -1 ∧
      (hang_source_reconnect s originResult sessionResult genAtCommit).1.catalog_handle = -1 ∧
      (hang_source_reconnect s originResult sessionResult genAtCommit).1.video_track = -1 ∧
      (s.video_track ≥ 0 → Event.closeTrack s.video_track ∈
        (hang_source_reconnect s originResult sessionResult genAtCommit).2) ∧
      (s.catalog_handle ≥ 0 → Event.closeCatalog s.catalog_handle ∈
        (hang_source_reconnect s originResult sessionResult genAtCommit).2) ∧
      (s.consume ≥ 0 → Event.closeConsume s.consume ∈
        (hang_source_reconnect s originResult sessionResult genAtCommit).2) ∧
      (s.session ≥ 0 → Event.closeSession s.session ∈
        (hang_source_reconnect s originResult sessionResult genAtCommit).2) ∧
      (s.origin ≥ 0 → Event.closeOrigin s.origin ∈
        (hang_source_reconnect s originResult sessionResult genAtCommit).2) ∧
      (0 ≤ originResult → 0 ≤ sessionResult →
        (genAtCommit = (s.generation + 1) % U32 →
          (hang_source_reconnect s originResult sessionResult genAtCommit).1.origin =
            originResult ∧
          (hang_source_reconnect s originResult sessionResult genAtCommit).1.session =
            sessionResult ∧
          (hang_source_reconnect s originResult sessionResult
            genAtCommit).1.reconnect_in_progress = false) ∧
        (genAtCommit ≠ (s.generation + 1) % U32 →
          (hang_source_reconnect s originResult sessionResult genAtCommit).1.origin = -1 ∧
          (hang_source_reconnect s originResult sessionResult genAtCommit).1.session = -1 ∧
          (hang_source_reconnect s originResult sessionResult
            genAtCommit).1.reconnect_in_progress = false ∧
          Event.closeSession sessionResult ∈
            (hang_source_reconnect s originResult sessionResult genAtCommit).2 ∧
          Event.closeOrigin originResult ∈
            (hang_source_reconnect s originResult sessionResult genAtCommit).2))) := by
  constructor
  · intro h
    simp [hang_source_reconnect, h]
  · intro hrip
    rw [reconnect_run s originResult sessionResult genAtCommit hrip]
    refine ⟨?_, ?_, ?_, ?_, ?_, ?_, ?_, ?_, ?_, ?_⟩
    · split_ifs <;> rfl
    · split_ifs <;> rfl
    · split_ifs <;> rfl
    · split_ifs <;> rfl
    · intro hh
      have hm : Event.closeTrack s.video_track ∈
          (hang_source_disconnect_locked (reconnectPrep s)).2 :=
        (disconnect_mem_closes (reconnectPrep s)).1 hh
      split_ifs <;> simp [List.mem_append, hm]
    · intro hh
      have hm : Event.closeCatalog s.catalog_handle ∈
          (hang_source_disconnect_locked (reconnectPrep s)).2 :=
        (disconnect_mem_closes (reconnectPrep s)).2.1 hh
      split_ifs <;> simp [List.mem_append, hm]
    · intro hh
      have hm : Event.closeConsume s.consume ∈
          (hang_source_disconnect_locked (reconnectPrep s)).2 :=
        (disconnect_mem_closes (reconnectPrep s)).2.2.1 hh
      split_ifs <;> simp [List.mem_append, hm]
    · intro hh
      have hm : Event.closeSession s.session ∈
          (hang_source_disconnect_locked (reconnectPrep s)).2 :=
        (disconnect_mem_closes (reconnectPrep s)).2.2.2.1 hh
      split_ifs <;> simp [List.mem_append, hm]
    · intro hh
      have hm : Event.closeOrigin s.origin ∈
          (hang_source_disconnect_locked (reconnectPrep s)).2 :=
        (disconnect_mem_closes (reconnectPrep s)).2.2.2.2 hh
      split_ifs <;> simp [List.mem_append, hm]
    · intro ho hs
      constructor
      · intro hgen
        split_ifs with h1 h2 h3
        · exact absurd h1 (by omega)
        · exact absurd h2 (by omega)
        · exact absurd hgen h3
        · refine ⟨?_, ?_, ?_⟩ <;> rfl
      · intro hgen
        split_ifs with h1 h2
        · exact absurd h1 (by omega)
        · exact absurd h2 (by omega)
        · refine ⟨?_, ?_, ?_, ?_, ?_⟩
          · rfl
          · rfl
          · rfl
          · simp [List.mem_append]
          · simp [List.mem_append]

/-- C6 witness: reconnect from the connected state with fresh handles 30
and 20 and a matching commit-time generation installs them and produces
generation 1. -/
theorem reconnect_gen_protocol_witness :
    (hang_source_reconnect connState 30 20 1).1.generation =
      (connState.generation + 1) % U32 ∧
    (hang_source_reconnect connState 30 20 1).1.origin = 30 ∧
    (hang_source_reconnect connState 30 20 1).1.session = 20 ∧
    (hang_source_reconnect connState 30 20 1).1.reconnect_in_progress = false :=
  let h := (reconnect_gen_protocol connState 30 20 1).2 (by decide)
  ⟨h.1, ((h.2.2.2.2.2.2.2.2.2 (by decide) (by decide)).1 (by decide)).1,
    ((h.2.2.2.2.2.2.2.2.2 (by decide) (by decide)).1 (by decide)).2.1,
    ((h.2.2.2.2.2.2.2.2.2 (by decide) (by decide)).1 (by decide)).2.2⟩

/-- C5 (amended): an origin-creation, session-connect, broadcast-consume or
catalog-subscription failure tears down the handle chain of the attempt,
emits a blank output, and schedules no retry; a video-track subscription
failure instead closes only the inbound catalog handle, leaves the
existing chain in place, and emits neither a blank nor a retry. -/
theorem connection_failure_teardown (s : HangState)
    (originResult sessionResult : Int) (genAtCommit : Nat)
    (expected_gen : Nat) (consumeResult catalogSubResult : Int)
    (catalog : Int) (cfg : MoqVideoConfig) (trackResult : Int) :
    (s.reconnect_in_progress = false → originResult < 0 →
      (hang_source_reconnect s originResult sessionResult genAtCommit).1.origin = -1 ∧
      (hang_source_reconnect s originResult sessionResult genAtCommit).1.session = -1 ∧
      (hang_source_reconnect s originResult sessionResult
        genAtCommit).1.reconnect_in_progress = false ∧
      Event.blankVideo ∈
        (hang_source_reconnect s originResult sessionResult genAtCommit).2 ∧
      (hang_source_reconnect s originResult sessionResult genAtCommit).2.countP
        isReconnectReq = 0 ∧
      (hang_source_reconnect s originResult sessionResult
        genAtCommit).1.reconnect_pending = s.reconnect_pending) ∧
    (s.reconnect_in_progress = false → 0 ≤ originResult → sessionResult < 0 →
      (hang_source_reconnect s originResult sessionResult genAtCommit).1.origin = -1 ∧
      (hang_source_reconnect s originResult sessionResult genAtCommit).1.session = -1 ∧
      (hang_source_reconnect s originResult sessionResult
        genAtCommit).1.reconnect_in_progress = false ∧
      Event.closeOrigin originResult ∈
        (hang_source_reconnect s originResult sessionResult genAtCommit).2 ∧
      Event.blankVideo ∈
        (hang_source_reconnect s originResult sessionResult genAtCommit).2 ∧
      (hang_source_reconnect s originResult sessionResult genAtCommit).2.countP
        isReconnectReq = 0 ∧
      (hang_source_reconnect s originResult sessionResult
        genAtCommit).1.reconnect_pending = s.reconnect_pending) ∧
    (s.origin ≥ 0 → s.generation = expected_gen → consumeResult < 0 →
      s.session ≥ 0 →
      (hang_source_start_consume s expected_gen consumeResult
        catalogSubResult).1.session = -1 ∧
      (hang_source_start_consume s expected_gen consumeResult
        catalogSubResult).1.origin = -1 ∧
      Event.closeSession s.session ∈
        (hang_source_start_consume s expected_gen consumeResult catalogSubResult).2 ∧
      Event.closeOrigin s.origin ∈
        (hang_source_start_consume s expected_gen consumeResult catalogSubResult).2 ∧
      Event.blankVideo ∈
        (hang_source_start_consume s expected_gen consumeResult catalogSubResult).2 ∧
      (hang_source_start_consume s expected_gen consumeResult
        catalogSubResult).2.countP isReconnectReq = 0 ∧
      (hang_source_start_consume s expected_gen consumeResult
        catalogSubResult).1.reconnect_pending = s.reconnect_pending) ∧
    (s.origin ≥ 0 → s.generation = expected_gen → 0 ≤ consumeResult →
      catalogSubResult < 0 → s.session ≥ 0 →
      (hang_source_start_consume s expected_gen consumeResult
        catalogSubResult).1.consume = -1 ∧
      (hang_source_start_consume s expected_gen consumeResult
        catalogSubResult).1.session = -1 ∧
      (hang_source_start_consume s expected_gen consumeResult
        catalogSubResult).1.origin = -1 ∧
      Event.closeConsume consumeResult ∈
        (hang_source_start_consume s expected_gen consumeResult catalogSubResult).2 ∧
      Event.closeSession s.session ∈
        (hang_source_start_consume s expected_gen consumeResult catalogSubResult).2 ∧
      Event.closeOrigin s.origin ∈
        (hang_source_start_consume s expected_gen consumeResult catalogSubResult).2 ∧
      Event.blankVideo ∈
        (hang_source_start_consume s expected_gen consumeResult catalogSubResult).2 ∧
      (hang_source_start_consume s expected_gen consumeResult
        catalogSubResult).2.countP isReconnectReq = 0 ∧
      (hang_source_start_consume s expected_gen consumeResult
        catalogSubResult).1.reconnect_pending = s.reconnect_pending) ∧
    (s.shutting_down = false → s.consume ≥ 0 → 0 ≤ catalog → trackResult < 0 →
      (on_catalog s catalog (some cfg) true trackResult).1.consume = s.consume ∧
      (on_catalog s catalog (some cfg) true trackResult).1.session = s.session ∧
      (on_catalog s catalog (some cfg) true trackResult).1.origin = s.origin ∧
      (on_catalog s catalog (some cfg) true trackResult).2 =
        [Event.closeCatalog catalog]) := by
  refine ⟨?_, ?_, ?_, ?_, ?_⟩
  · intro hrip ho
    rw [reconnect_run s originResult sessionResult genAtCommit hrip]
    split_ifs
    refine ⟨rfl, rfl, rfl, ?_, ?_, rfl⟩
    · simp [List.mem_append]
    · simp [List.countP_append, disconnect_events_no_reconnect, isReconnectReq]
  · intro hrip ho hs
    rw [reconnect_run s originResult sessionResult genAtCommit hrip]
    split_ifs with h1
    · exact absurd h1 (by omega)
    · refine ⟨rfl, rfl, rfl, ?_, ?_, ?_, rfl⟩
      · simp [List.mem_append]
      · simp [List.mem_append]
      · simp [List.countP_append, disconnect_events_no_reconnect, isReconnectReq]
  · intro ho hg hc hsess
    have ho' : ¬ s.origin < 0 := by omega
    simp [hang_source_start_consume, closeSessionOrigin, ho', ho, hg, hc, hsess,
      List.countP_append, List.mem_append, isReconnectReq]
  · intro ho hg hc hcat hsess
    have ho' : ¬ s.origin < 0 := by omega
    have hc' : ¬ consumeResult < 0 := by omega
    simp [hang_source_start_consume, closeConsumeSessionOrigin, ho', ho, hg, hc,
      hc', hcat, hsess, List.countP_append, List.mem_append, isReconnectReq]
  · intro hsd hcons hcat htr
    have hcons' : ¬ s.consume < 0 := by omega
    have hcat' : ¬ catalog < 0 := by omega
    simp [on_catalog, hsd, hcons', hcat', htr, hang_source_init_decoder,
      initGeometry]

/-- C5 counterexample: from the connected state, a video-track
subscription failure (`moq_consume_video_ordered` returning −1) after a
successful catalog and decoder setup leaves the consume, session and
origin handles open and emits no blank output — the full chain is not
torn down. -/
theorem track_fail_no_teardown :
    (on_catalog connState 9
        (some { coded_width := some 1280, coded_height := some 720 })
        true (-1)).1.consume = 1 ∧
    (on_catalog connState 9
        (some { coded_width := some 1280, coded_height := some 720 })
        true (-1)).1.session = 2 ∧
    (on_catalog connState 9
        (some { coded_width := some 1280, coded_height := some 720 })
        true (-1)).1.origin = 3 ∧
    Event.blankVideo ∉
      (on_catalog connState 9
        (some { coded_width := some 1280, coded_height := some 720 })
        true (-1)).2 := by
  decide

/-- C5 witness: the consume-failure part of the amended theorem at the
connected state. -/
theorem connection_failure_teardown_witness :
    (hang_source_start_consume connState 0 (-1) 0).1.session = -1 ∧
    (hang_source_start_consume connState 0 (-1) 0).1.origin = -1 ∧
    Event.closeSession connState.session ∈
      (hang_source_start_consume connState 0 (-1) 0).2 ∧
    Event.closeOrigin connState.origin ∈
      (hang_source_start_consume connState 0 (-1) 0).2 ∧
    Event.blankVideo ∈ (hang_source_start_consume connState 0 (-1) 0).2 ∧
    (hang_source_start_consume connState 0 (-1) 0).2.countP isReconnectReq = 0 ∧
    (hang_source_start_consume connState 0 (-1) 0).1.reconnect_pending =
      connState.reconnect_pending :=
  (connection_failure_teardown connState 0 0 0 0 (-1) 0 0
      { coded_width := none, coded_height := none } 0).2.2.1
    (by decide) (by decide) (by decide) (by decide)

/-- C7: once `shutting_down` is set, the tick and every asynchronous
callback (session status, catalog, video frame, frame decode) return with
the state untouched, closing only the inbound resource they were handed;
and no entry point of the subsystem ever clears the flag. -/
theorem shutdown_noop (s : HangState) (now : Nat) (code : Int)
    (url broadcast : String)
    (catalog : Int) (cfgResult : Option MoqVideoConfig) (initAllocOk : Bool)
    (trackResult : Int)
    (frame_id : Int) (chunk : Option MoqFrame) (packetOk : Bool)
    (send : AVResult) (frameAllocOk : Bool) (recv : AVResult)
    (geom : AVFrameGeom) (swsOk bufOk : Bool)
    (originResult sessionResult : Int) (genAtCommit : Nat)
    (expected_gen : Nat) (consumeResult catalogSubResult : Int)
    (hsd : s.shutting_down = true) :
    hang_source_video_tick s now = (s, []) ∧
    on_session_status s code = (s, []) ∧
    (0 ≤ catalog → on_catalog s catalog cfgResult initAllocOk trackResult =
      (s, [Event.closeCatalog catalog])) ∧
    (catalog < 0 →
      on_catalog s catalog cfgResult initAllocOk trackResult = (s, [])) ∧
    (0 ≤ frame_id → on_video_frame s frame_id chunk packetOk send frameAllocOk
      recv geom swsOk bufOk = (s, [Event.closeFrame frame_id])) ∧
    (frame_id < 0 → on_video_frame s frame_id chunk packetOk send frameAllocOk
      recv geom swsOk bufOk = (s, [])) ∧
    hang_source_decode_frame s frame_id chunk packetOk send frameAllocOk recv
      geom swsOk bufOk = (s, [Event.closeFrame frame_id]) ∧
    (hang_source_update s url broadcast now).shutting_down = true ∧
    (hang_source_reconnect s originResult sessionResult
      genAtCommit).1.shutting_down = true ∧
    (hang_source_start_consume s expected_gen consumeResult
      catalogSubResult).1.shutting_down = true := by
  refine ⟨?_, ?_, ?_, ?_, ?_, ?_, ?_, ?_, ?_, ?_⟩
  · simp [hang_source_video_tick, hsd]
  · simp [on_session_status, hsd]
  · intro h
    simp [on_catalog, hsd, h]
  · intro h
    have h' : ¬ catalog ≥ 0 := by omega
    simp [on_catalog, hsd, h']
  · intro h
    have h' : ¬ frame_id < 0 := by omega
    simp [on_video_frame, hang_source_decode_frame, hsd, h']
  · intro h
    simp [on_video_frame, h]
  · simp [hang_source_decode_frame, hsd]
  · simp only [hang_source_update]
    split_ifs <;> simp [hsd]
  · simp only [hang_source_reconnect]
    split_ifs <;> simp [hsd, hang_source_disconnect_locked]
  · simp only [hang_source_start_consume]
    split_ifs <;>
      simp [hsd, closeSessionOrigin, closeConsumeSessionOrigin]

/-- C7 witness state: the connected state with the shutdown flag set. -/
def sdState : HangState := { connState with shutting_down := true }

/-- C7 witness: the theorem at the concrete shut-down connected state. -/
theorem shutdown_noop_witness :
    hang_source_video_tick sdState 1000000000 = (sdState, []) ∧
    on_session_status sdState 0 = (sdState, []) ∧
    (0 ≤ (9 : Int) → on_catalog sdState 9 none true (-1) =
      (sdState, [Event.closeCatalog 9])) ∧
    ((9 : Int) < 0 → on_catalog sdState 9 none true (-1) = (sdState, [])) ∧
    (0 ≤ (7 : Int) → on_video_frame sdState 7 none true AVResult.ok true
      AVResult.ok { width := 1920, height := 1080 } true true =
      (sdState, [Event.closeFrame 7])) ∧
    ((7 : Int) < 0 → on_video_frame sdState 7 none true AVResult.ok true
      AVResult.ok { width := 1920, height := 1080 } true true = (sdState, [])) ∧
    hang_source_decode_frame sdState 7 none true AVResult.ok true AVResult.ok
      { width := 1920, height := 1080 } true true =
      (sdState, [Event.closeFrame 7]) ∧
    (hang_source_update sdState "x" "y" 5).shutting_down = true ∧
    (hang_source_reconnect sdState 30 20 1).1.shutting_down = true ∧
    (hang_source_start_consume sdState 0 10 11).1.shutting_down = true :=
  shutdown_noop sdState 1000000000 0 "x" "y" 9 none true (-1) 7 none true
    AVResult.ok true AVResult.ok { width := 1920, height := 1080 } true true
    30 20 1 0 10 11 (by decide)

/-- C2: while `got_keyframe` is false and the decoder is populated, a
fetched non-keyframe is dropped — the only event is closing the frame
handle, no output is produced — and the waiting counter is incremented by
one (`uint32_t` arithmetic); a keyframe sets `got_keyframe` and resets the
waiting counter to zero. -/
theorem decode_keyframe_gate (s : HangState) (frame_id : Int) (fd : MoqFrame)
    (packetOk : Bool) (send : AVResult) (frameAllocOk : Bool)
    (recv : AVResult) (geom : AVFrameGeom) (swsOk bufOk : Bool)
    (hsd : s.shutting_down = false) (hc : s.codec_ctx = true)
    (hsw : s.sws_ctx ≠ none) (hb : s.frame_buffer ≠ none)
    (hk : s.got_keyframe = false) :
    (fd.keyframe = false →
      hang_source_decode_frame s frame_id (some fd) packetOk send frameAllocOk
          recv geom swsOk bufOk =
        ({ s with frames_waiting_for_keyframe :=
            (s.frames_waiting_for_keyframe + 1) % U32 },
          [Event.closeFrame frame_id])) ∧
    (fd.keyframe = false → ∀ w h t, Event.outputVideo w h t ∉
      (hang_source_decode_frame s frame_id (some fd) packetOk send frameAllocOk
        recv geom swsOk bufOk).2) ∧
    (fd.keyframe = true →
      (hang_source_decode_frame s frame_id (some fd) packetOk send frameAllocOk
        recv geom swsOk bufOk).1.got_keyframe = true ∧
      (hang_source_decode_frame s frame_id (some fd) packetOk send frameAllocOk
        recv geom swsOk bufOk).1.frames_waiting_for_keyframe = 0) := by
  refine ⟨?_, ?_, ?_⟩
  · intro hkf
    simp [hang_source_decode_frame, hsd, hc, hsw, hb, hk, hkf]
  · intro hkf w h t
    simp [hang_source_decode_frame, hsd, hc, hsw, hb, hk, hkf]
  · intro hkf
    constructor
    · cases send <;> cases recv <;>
        simp [hang_source_decode_frame, hsd, hc, hsw, hb, hk, hkf, U32] <;>
        split_ifs <;> rfl
    · cases send <;> cases recv <;>
        simp [hang_source_decode_frame, hsd, hc, hsw, hb, hk, hkf, U32] <;>
        split_ifs <;> rfl

/-- C2 witness: at the concrete connected waiting state, a non-keyframe is
dropped with the counter moving to one, and a keyframe flips the gate. -/
theorem decode_keyframe_gate_witness :
    (hang_source_decode_frame connState 7
        (some { keyframe := false, payload_size := 10, timestamp_us := 123 })
        true AVResult.ok true AVResult.ok { width := 1920, height := 1080 }
        true true =
      ({ connState with frames_waiting_for_keyframe :=
          (connState.frames_waiting_for_keyframe + 1) % U32 },
        [Event.closeFrame 7])) ∧
    (hang_source_decode_frame connState 7
        (some { keyframe := true, payload_size := 10, timestamp_us := 123 })
        true AVResult.ok true AVResult.ok { width := 1920, height := 1080 }
        true true).1.got_keyframe = true :=
  ⟨(decode_keyframe_gate connState 7
      { keyframe := false, payload_size := 10, timestamp_us := 123 }
      true AVResult.ok true AVResult.ok { width := 1920, height := 1080 }
      true true (by decide) (by decide) (by decide) (by decide) (by decide)).1
    (by decide),
   ((decode_keyframe_gate connState 7
      { keyframe := true, payload_size := 10, timestamp_us := 123 }
      true AVResult.ok true AVResult.ok { width := 1920, height := 1080 }
      true true (by decide) (by decide) (by decide) (by decide) (by decide)).2.2
    (by decide)).1⟩

/-- While the keyframe gate is closed, a non-keyframe never produces an
output event, whatever the decoder oracles do. -/
theorem decode_no_output_when_waiting (s : HangState) (frame_id : Int)
    (fd : MoqFrame) (packetOk : Bool) (send : AVResult) (frameAllocOk : Bool)
    (recv : AVResult) (geom : AVFrameGeom) (swsOk bufOk : Bool)
    (hk : s.got_keyframe = false) (hkf : fd.keyframe = false) :
    ∀ w h t, Event.outputVideo w h t ∉
      (hang_source_decode_frame s frame_id (some fd) packetOk send frameAllocOk
        recv geom swsOk bufOk).2 := by
  intro w h t
  by_cases hsd : s.shutting_down = true
  · simp [hang_source_decode_frame, hsd]
  · by_cases hdec : s.codec_ctx = false ∨ s.sws_ctx = none ∨ s.frame_buffer = none
    · simp [hang_source_decode_frame, hsd, hdec]
    · simp [hang_source_decode_frame, hsd, hdec, hk, hkf]

/-- C3: past the keyframe gate, a genuine decode failure at either libav
call (send or receive, `EAGAIN` excluded) increments the consecutive-error
counter (`uint32_t` arithmetic; a keyframe first resets it to zero);
reaching 5 flushes the decoder, clears `got_keyframe` and resets the
counter, after which no output is produced on further erroring or
non-keyframe input until a fresh keyframe; no output is produced by the
failing call itself, and the connection handles are untouched. -/
theorem decode_error_threshold (s : HangState) (frame_id : Int) (fd : MoqFrame)
    (packetOk : Bool) (send : AVResult) (frameAllocOk : Bool)
    (recv : AVResult) (geom : AVFrameGeom) (swsOk bufOk : Bool)
    (res : HangState) (evs : List Event)
    (hsd : s.shutting_down = false) (hc : s.codec_ctx = true)
    (hsw : s.sws_ctx ≠ none) (hb : s.frame_buffer ≠ none)
    (hpast : s.got_keyframe = true ∨ fd.keyframe = true)
    (hp : packetOk = true)
    (herr : send = AVResult.err ∨
      (send = AVResult.ok ∧ frameAllocOk = true ∧ recv = AVResult.err))
    (hres : hang_source_decode_frame s frame_id (some fd) packetOk send
      frameAllocOk recv geom swsOk bufOk = (res, evs)) :
    res.consecutive_decode_errors =
      (if ((if fd.keyframe = true then 0 else s.consecutive_decode_errors) + 1) %
          U32 ≥ 5 then 0
       else ((if fd.keyframe = true then 0 else s.consecutive_decode_errors) + 1) %
          U32) ∧
    (((if fd.keyframe = true then 0 else s.consecutive_decode_errors) + 1) %
        U32 ≥ 5 →
      res.got_keyframe = false ∧ Event.flushDecoder ∈ evs) ∧
    (((if fd.keyframe = true then 0 else s.consecutive_decode_errors) + 1) %
        U32 < 5 →
      res.got_keyframe = true) ∧
    (∀ w h t, Event.outputVideo w h t ∉ evs) ∧
    res.origin = s.origin ∧ res.session = s.session ∧ res.consume = s.consume ∧
    res.catalog_handle = s.catalog_handle ∧ res.video_track = s.video_track ∧
    (∀ hdl, Event.closeSession hdl ∉ evs) ∧
    (((if fd.keyframe = true then 0 else s.consecutive_decode_errors) + 1) %
        U32 ≥ 5 →
      ∀ (fid2 : Int) (fd2 : MoqFrame) (p2 : Bool) (send2 : AVResult)
        (fa2 : Bool) (recv2 : AVResult) (geom2 : AVFrameGeom) (sws2 buf2 : Bool),
        fd2.keyframe = false →
        ∀ w h t, Event.outputVideo w h t ∉
          (hang_source_decode_frame res fid2 (some fd2) p2 send2 fa2 recv2
            geom2 sws2 buf2).2) := by
  subst hp
  rcases herr with hsend | ⟨hsend, hfa, hrecv⟩
  · subst hsend
    by_cases hkf : fd.keyframe = true
    · by_cases hgot : s.got_keyframe = true
      · simp [hang_source_decode_frame, hsd, hc, hsw, hb, hkf, hgot, U32] at hres
        obtain ⟨rfl, rfl⟩ := hres
        exact ⟨by simp [hkf, U32], by simp [hkf, U32], by simp, by simp, rfl,
          rfl, rfl, rfl, rfl, by simp, by simp [hkf, U32]⟩
      · simp [hang_source_decode_frame, hsd, hc, hsw, hb, hkf, hgot, U32] at hres
        obtain ⟨rfl, rfl⟩ := hres
        exact ⟨by simp [hkf, U32], by simp [hkf, U32], by simp, by simp, rfl,
          rfl, rfl, rfl, rfl, by simp, by simp [hkf, U32]⟩
    · have hgot : s.got_keyframe = true := by
        rcases hpast with h | h
        · exact h
        · exact absurd h hkf
      by_cases hth : (s.consecutive_decode_errors + 1) % U32 ≥ 5
      · simp [hang_source_decode_frame, hsd, hc, hsw, hb, hkf, hgot, hth] at hres
        obtain ⟨rfl, rfl⟩ := hres
        refine ⟨by simp [hkf, hth], fun _ => ⟨rfl, by simp⟩, ?_, by simp, rfl,
          rfl, rfl, rfl, rfl, by simp, ?_⟩
        · intro hlt
          rw [if_neg hkf] at hlt
          exact absurd hth (by omega)
        · intro _ fid2 fd2 p2 s2 f2 r2 g2 sw2 b2 hkf2 w h t
          exact decode_no_output_when_waiting _ _ _ _ _ _ _ _ _ _ rfl hkf2 w h t
      · simp [hang_source_decode_frame, hsd, hc, hsw, hb, hkf, hgot, hth] at hres
        obtain ⟨rfl, rfl⟩ := hres
        refine ⟨by simp [hkf, hth], ?_, fun _ => rfl, by simp, rfl, rfl, rfl,
          rfl, rfl, by simp, ?_⟩
        · intro habs
          rw [if_neg hkf] at habs
          exact absurd habs hth
        · intro habs
          rw [if_neg hkf] at habs
          exact absurd habs hth
  · subst hsend
    subst hfa
    subst hrecv
    by_cases hkf : fd.keyframe = true
    · by_cases hgot : s.got_keyframe = true
      · simp [hang_source_decode_frame, hsd, hc, hsw, hb, hkf, hgot, U32] at hres
        obtain ⟨rfl, rfl⟩ := hres
        exact ⟨by simp [hkf, U32], by simp [hkf, U32], by simp, by simp, rfl,
          rfl, rfl, rfl, rfl, by simp, by simp [hkf, U32]⟩
      · simp [hang_source_decode_frame, hsd, hc, hsw, hb, hkf, hgot, U32] at hres
        obtain ⟨rfl, rfl⟩ := hres
        exact ⟨by simp [hkf, U32], by simp [hkf, U32], by simp, by simp, rfl,
          rfl, rfl, rfl, rfl, by simp, by simp [hkf, U32]⟩
    · have hgot : s.got_keyframe = true := by
        rcases hpast with h | h
        · exact h
        · exact absurd h hkf
      by_cases hth : (s.consecutive_decode_errors + 1) % U32 ≥ 5
      · simp [hang_source_decode_frame, hsd, hc, hsw, hb, hkf, hgot, hth] at hres
        obtain ⟨rfl, rfl⟩ := hres
        refine ⟨by simp [hkf, hth], fun _ => ⟨rfl, by simp⟩, ?_, by simp, rfl,
          rfl, rfl, rfl, rfl, by simp, ?_⟩
        · intro hlt
          rw [if_neg hkf] at hlt
          exact absurd hth (by omega)
        · intro _ fid2 fd2 p2 s2 f2 r2 g2 sw2 b2 hkf2 w h t
          exact decode_no_output_when_waiting _ _ _ _ _ _ _ _ _ _ rfl hkf2 w h t
      · simp [hang_source_decode_frame, hsd, hc, hsw, hb, hkf, hgot, hth] at hres
        obtain ⟨rfl, rfl⟩ := hres
        refine ⟨by simp [hkf, hth], ?_, fun _ => rfl, by simp, rfl, rfl, rfl,
          rfl, rfl, by simp, ?_⟩
        · intro habs
          rw [if_neg hkf] at habs
          exact absurd habs hth
        · intro habs
          rw [if_neg hkf] at habs
          exact absurd habs hth

/-- C3 witness state: streaming with four consecutive decode errors. -/
def errState : HangState :=
  { connState with got_keyframe := true, consecutive_decode_errors := 4 }

/-- C3 witness frame: a non-keyframe. -/
def errFrame : MoqFrame :=
  { keyframe := false, payload_size := 10, timestamp_us := 123 }

/-- C3 witness: a fifth consecutive send error at the concrete state
flushes the decoder, clears the keyframe gate, resets the counter, emits
no output and leaves the handles alone. -/
theorem decode_error_threshold_witness :
    (hang_source_decode_frame errState 7 (some errFrame) true AVResult.err
        true AVResult.ok { width := 1920, height := 1080 } true
        true).1.consecutive_decode_errors =
      (if ((if errFrame.keyframe = true then 0
            else errState.consecutive_decode_errors) + 1) % U32 ≥ 5 then 0
       else ((if errFrame.keyframe = true then 0
            else errState.consecutive_decode_errors) + 1) % U32) ∧
    (((if errFrame.keyframe = true then 0
        else errState.consecutive_decode_errors) + 1) % U32 ≥ 5 →
      (hang_source_decode_frame errState 7 (some errFrame) true AVResult.err
        true AVResult.ok { width := 1920, height := 1080 } true
        true).1.got_keyframe = false ∧
      Event.flushDecoder ∈
        (hang_source_decode_frame errState 7 (some errFrame) true AVResult.err
          true AVResult.ok { width := 1920, height := 1080 } true true).2) ∧
    (((if errFrame.keyframe = true then 0
        else errState.consecutive_decode_errors) + 1) % U32 < 5 →
      (hang_source_decode_frame errState 7 (some errFrame) true AVResult.err
        true AVResult.ok { width := 1920, height := 1080 } true
        true).1.got_keyframe = true) ∧
    (∀ w h t, Event.outputVideo w h t ∉
      (hang_source_decode_frame errState 7 (some errFrame) true AVResult.err
        true AVResult.ok { width := 1920, height := 1080 } true true).2) ∧
    (hang_source_decode_frame errState 7 (some errFrame) true AVResult.err
      true AVResult.ok { width := 1920, height := 1080 } true true).1.origin =
      errState.origin ∧
    (hang_source_decode_frame errState 7 (some errFrame) true AVResult.err
      true AVResult.ok { width := 1920, height := 1080 } true true).1.session =
      errState.session ∧
    (hang_source_decode_frame errState 7 (some errFrame) true AVResult.err
      true AVResult.ok { width := 1920, height := 1080 } true true).1.consume =
      errState.consume ∧
    (hang_source_decode_frame errState 7 (some errFrame) true AVResult.err
      true AVResult.ok { width := 1920, height := 1080 } true
      true).1.catalog_handle = errState.catalog_handle ∧
    (hang_source_decode_frame errState 7 (some errFrame) true AVResult.err
      true AVResult.ok { width := 1920, height := 1080 } true
      true).1.video_track = errState.video_track ∧
    (∀ hdl, Event.closeSession hdl ∉
      (hang_source_decode_frame errState 7 (some errFrame) true AVResult.err
        true AVResult.ok { width := 1920, height := 1080 } true true).2) ∧
    (((if errFrame.keyframe = true then 0
        else errState.consecutive_decode_errors) + 1) % U32 ≥ 5 →
      ∀ (fid2 : Int) (fd2 : MoqFrame) (p2 : Bool) (send2 : AVResult)
        (fa2 : Bool) (recv2 : AVResult) (geom2 : AVFrameGeom) (sws2 buf2 : Bool),
        fd2.keyframe = false →
        ∀ w h t, Event.outputVideo w h t ∉
          (hang_source_decode_frame
            (hang_source_decode_frame errState 7 (some errFrame) true
              AVResult.err true AVResult.ok { width := 1920, height := 1080 }
              true true).1
            fid2 (some fd2) p2 send2 fa2 recv2 geom2 sws2 buf2).2) :=
  decode_error_threshold errState 7 errFrame true AVResult.err true AVResult.ok
    { width := 1920, height := 1080 } true true
    (hang_source_decode_frame errState 7 (some errFrame) true AVResult.err
      true AVResult.ok { width := 1920, height := 1080 } true true).1
    (hang_source_decode_frame errState 7 (some errFrame) true AVResult.err
      true AVResult.ok { width := 1920, height := 1080 } true true).2
    (by decide) (by decide) (by decide) (by decide) (by decide) (by decide)
    (by decide) rfl

/-- C4: on a successful decode whose delivered geometry differs from the
current buffer geometry, an out-of-range geometry (a dimension ≤ 0 or
> 16384) drops the frame — no output, scaler and buffer and geometry
untouched, only the frame handle is closed; an in-range geometry (with the
allocations succeeding) rebuilds the scaler and the frame buffer (sized
`width × height × 4`) to the new geometry and only then outputs the
converted frame, stamped with the source timestamp. -/
theorem decode_geometry_change (s : HangState) (frame_id : Int) (fd : MoqFrame)
    (packetOk : Bool) (send : AVResult) (frameAllocOk : Bool)
    (recv : AVResult) (geom : AVFrameGeom) (swsOk bufOk : Bool)
    (res : HangState) (evs : List Event)
    (hsd : s.shutting_down = false) (hc : s.codec_ctx = true)
    (hsw : s.sws_ctx ≠ none) (hb : s.frame_buffer ≠ none)
    (hpast : s.got_keyframe = true ∨ fd.keyframe = true)
    (hp : packetOk = true) (hsend : send = AVResult.ok)
    (hfa : frameAllocOk = true) (hrecv : recv = AVResult.ok)
    (hdiff : geom.width ≠ i32ofU32 s.frame_width ∨
      geom.height ≠ i32ofU32 s.frame_height)
    (hres : hang_source_decode_frame s frame_id (some fd) packetOk send
      frameAllocOk recv geom swsOk bufOk = (res, evs)) :
    (geom.width ≤ 0 ∨ geom.height ≤ 0 ∨
        geom.width > 16384 ∨ geom.height > 16384 →
      (∀ w h t, Event.outputVideo w h t ∉ evs) ∧
      res.sws_ctx = s.sws_ctx ∧ res.frame_buffer = s.frame_buffer ∧
      res.frame_width = s.frame_width ∧ res.frame_height = s.frame_height ∧
      Event.closeFrame frame_id ∈ evs) ∧
    (¬ (geom.width ≤ 0 ∨ geom.height ≤ 0 ∨
        geom.width > 16384 ∨ geom.height > 16384) →
      swsOk = true → bufOk = true →
      res.sws_ctx = some (geom.width.toNat, geom.height.toNat) ∧
      res.frame_buffer = some (geom.width.toNat * geom.height.toNat * 4) ∧
      res.frame_width = geom.width.toNat ∧
      res.frame_height = geom.height.toNat ∧
      res.frame_linesize0 = geom.width.toNat * 4 ∧
      res.frame_timestamp = fd.timestamp_us ∧
      Event.outputVideo geom.width.toNat geom.height.toNat fd.timestamp_us ∈
        evs) := by
  subst hp
  subst hsend
  subst hfa
  subst hrecv
  constructor
  · intro hoob
    by_cases hkf : fd.keyframe = true
    · by_cases hgot : s.got_keyframe = true
      · simp [hang_source_decode_frame, hsd, hc, hsw, hb, hkf, hgot, hdiff,
          hoob] at hres
        obtain ⟨rfl, rfl⟩ := hres
        exact ⟨by simp, rfl, rfl, rfl, rfl, by simp⟩
      · simp [hang_source_decode_frame, hsd, hc, hsw, hb, hkf, hgot, hdiff,
          hoob] at hres
        obtain ⟨rfl, rfl⟩ := hres
        exact ⟨by simp, rfl, rfl, rfl, rfl, by simp⟩
    · have hgot : s.got_keyframe = true := by
        rcases hpast with h | h
        · exact h
        · exact absurd h hkf
      simp [hang_source_decode_frame, hsd, hc, hsw, hb, hkf, hgot, hdiff,
        hoob] at hres
      obtain ⟨rfl, rfl⟩ := hres
      exact ⟨by simp, rfl, rfl, rfl, rfl, by simp⟩
  · intro hoob hsws hbuf
    subst hsws
    subst hbuf
    by_cases hkf : fd.keyframe = true
    · by_cases hgot : s.got_keyframe = true
      · simp [hang_source_decode_frame, hsd, hc, hsw, hb, hkf, hgot, hdiff,
          hoob] at hres
        obtain ⟨rfl, rfl⟩ := hres
        exact ⟨rfl, rfl, rfl, rfl, rfl, rfl, by simp⟩
      · simp [hang_source_decode_frame, hsd, hc, hsw, hb, hkf, hgot, hdiff,
          hoob] at hres
        obtain ⟨rfl, rfl⟩ := hres
        exact ⟨rfl, rfl, rfl, rfl, rfl, rfl, by simp⟩
    · have hgot : s.got_keyframe = true := by
        rcases hpast with h | h
        · exact h
        · exact absurd h hkf
      simp [hang_source_decode_frame, hsd, hc, hsw, hb, hkf, hgot, hdiff,
        hoob] at hres
      obtain ⟨rfl, rfl⟩ := hres
      exact ⟨rfl, rfl, rfl, rfl, rfl, rfl, by simp⟩

/-- C4 witness state: streaming at 1920×1080. -/
def geomState : HangState := { connState with got_keyframe := true }

/-- C4 witness frame metadata. -/
def geomFrame : MoqFrame :=
  { keyframe := false, payload_size := 10, timestamp_us := 555 }

/-- C4 witness: a successful decode delivering 1280×720 rebuilds the
scaler and buffer and outputs at the new geometry with the source
timestamp. -/
theorem decode_geometry_change_witness :
    (hang_source_decode_frame geomState 7 (some geomFrame) true AVResult.ok
      true AVResult.ok { width := 1280, height := 720 } true true).1.sws_ctx =
      some ((1280 : Int).toNat, (720 : Int).toNat) ∧
    (hang_source_decode_frame geomState 7 (some geomFrame) true AVResult.ok
      true AVResult.ok { width := 1280, height := 720 } true
      true).1.frame_buffer =
      some ((1280 : Int).toNat * (720 : Int).toNat * 4) ∧
    (hang_source_decode_frame geomState 7 (some geomFrame) true AVResult.ok
      true AVResult.ok { width := 1280, height := 720 } true
      true).1.frame_width = (1280 : Int).toNat ∧
    (hang_source_decode_frame geomState 7 (some geomFrame) true AVResult.ok
      true AVResult.ok { width := 1280, height := 720 } true
      true).1.frame_height = (720 : Int).toNat ∧
    (hang_source_decode_frame geomState 7 (some geomFrame) true AVResult.ok
      true AVResult.ok { width := 1280, height := 720 } true
      true).1.frame_linesize0 = (1280 : Int).toNat * 4 ∧
    (hang_source_decode_frame geomState 7 (some geomFrame) true AVResult.ok
      true AVResult.ok { width := 1280, height := 720 } true
      true).1.frame_timestamp = geomFrame.timestamp_us ∧
    Event.outputVideo (1280 : Int).toNat (720 : Int).toNat
        geomFrame.timestamp_us ∈
      (hang_source_decode_frame geomState 7 (some geomFrame) true AVResult.ok
        true AVResult.ok { width := 1280, height := 720 } true true).2 :=
  (decode_geometry_change geomState 7 geomFrame true AVResult.ok true
      AVResult.ok { width := 1280, height := 720 } true true
      (hang_source_decode_frame geomState 7 (some geomFrame) true AVResult.ok
        true AVResult.ok { width := 1280, height := 720 } true true).1
      (hang_source_decode_frame geomState 7 (some geomFrame) true AVResult.ok
        true AVResult.ok { width := 1280, height := 720 } true true).2
      (by decide) (by decide) (by decide) (by decide) (by decide) (by decide)
      (by decide) (by decide) (by decide) (by decide) rfl).2
    (by decide) (by decide) (by decide)

/-- The decode pipeline closes the inbound frame handle exactly once on
every one of its paths. -/
theorem decode_closes_once (s : HangState) (frame_id : Int)
    (chunk : Option MoqFrame) (packetOk : Bool) (send : AVResult)
    (frameAllocOk : Bool) (recv : AVResult) (geom : AVFrameGeom)
    (swsOk bufOk : Bool) :
    ((hang_source_decode_frame s frame_id chunk packetOk send frameAllocOk
      recv geom swsOk bufOk).2).count (Event.closeFrame frame_id) = 1 := by
  by_cases hsd : s.shutting_down = true
  · simp [hang_source_decode_frame, hsd]
  · by_cases hdec : s.codec_ctx = false ∨ s.sws_ctx = none ∨ s.frame_buffer = none
    · simp [hang_source_decode_frame, hsd, hdec]
    · rcases chunk with _ | fd
      · simp [hang_source_decode_frame, hsd, hdec]
      · by_cases hwait : s.got_keyframe = false ∧ fd.keyframe = false
        · simp [hang_source_decode_frame, hsd, hdec, hwait]
        · cases hpk : packetOk
          · simp [hang_source_decode_frame, hsd, hdec, hwait, hpk]
            split_ifs <;> simp [List.count_cons]
          · cases send
            · cases hfa : frameAllocOk
              · simp [hang_source_decode_frame, hsd, hdec, hwait, hpk, hfa]
                split_ifs <;> simp [List.count_cons]
              · cases recv <;>
                  · simp [hang_source_decode_frame, hsd, hdec, hwait, hpk, hfa]
                    split_ifs <;> simp [List.count_cons]
            · simp [hang_source_decode_frame, hsd, hdec, hwait, hpk]
              split_ifs <;> simp [List.count_cons]
            · simp [hang_source_decode_frame, hsd, hdec, hwait, hpk]
              split_ifs <;> simp [List.count_cons]

/-- C10: every frame handle delivered to the video-frame callback with a
non-negative id is closed exactly once, on every code path of the callback
and of the decode pipeline it delegates to. -/
theorem frame_closed_exactly_once (s : HangState) (frame_id : Int)
    (chunk : Option MoqFrame) (packetOk : Bool) (send : AVResult)
    (frameAllocOk : Bool) (recv : AVResult) (geom : AVFrameGeom)
    (swsOk bufOk : Bool) (hfi : 0 ≤ frame_id) :
    ((on_video_frame s frame_id chunk packetOk send frameAllocOk recv geom
      swsOk bufOk).2).count (Event.closeFrame frame_id) = 1 := by
  have hfi' : ¬ frame_id < 0 := by omega
  by_cases hsd : s.shutting_down = true
  · simp [on_video_frame, hfi', hsd]
  · by_cases hco : s.consume < 0
    · simp [on_video_frame, hfi', hsd, hco]
    · simp [on_video_frame, hfi', hsd, hco, decode_closes_once]

/-- C10 witness: the callback at the concrete connected state and frame
handle 7 closes it exactly once. -/
theorem frame_closed_exactly_once_witness :
    ((on_video_frame connState 7
      (some { keyframe := true, payload_size := 10, timestamp_us := 123 })
      true AVResult.ok true AVResult.ok { width := 1920, height := 1080 }
      true true).2).count (Event.closeFrame 7) = 1 :=
  frame_closed_exactly_once connState 7
    (some { keyframe := true, payload_size := 10, timestamp_us := 123 })
    true AVResult.ok true AVResult.ok { width := 1920, height := 1080 }
    true true (by decide)

end ObsMoq
